import Mathlib

/-!
Shallow embedding of `src/plugins/android-fingerprint-auth.ts` from the
`ionic-native` repository.

The source file is a declarative typing layer: it declares the option and
result shapes of four static methods of the `AndroidFingerprintAuth` class
(`encrypt`, `decrypt`, `isAvailable`, `delete`), the `@Plugin` decorator
configuration naming the bridge-visible entry point, and a static `ERRORS`
constant mapping error-code identifiers to identical strings.  The method
bodies themselves are empty (`{ return; }`); the `@Cordova` decorator
forwards each call to the native plugin outside this repository.

We embed the declarations as explicit data (field tables, operation
declarations, the error table) transcribed from the TypeScript source, a
runtime record type for the options object, and a module-state step
function for the (absent) in-process effects of the four operations.
The encrypt/decrypt round-trip concerns the native side whose code is not
in this repository; a mock double is modelled from the spec for it.
-/

namespace AndroidFingerprintAuthSpec

/-- Declaration of one field of a TypeScript interface or inline object
type: the field name, the TypeScript type text, and whether the field is
marked optional (`?`). -/
structure FieldDecl where
  name : String
  tsType : String
  optional : Bool
deriving DecidableEq, Repr

/-- Field table of the `AndroidFingerprintAuthOptions` interface,
transcribed field by field from the source (lines 3-64): `clientId` is the
only field without the optional marker. -/
def AndroidFingerprintAuthOptionsFields : List FieldDecl :=
  [ ⟨"clientId", "string", false⟩,
    ⟨"username", "string", true⟩,
    ⟨"password", "string", true⟩,
    ⟨"token", "string", true⟩,
    ⟨"disableBackup", "boolean", true⟩,
    ⟨"locale", "string", true⟩,
    ⟨"maxAttempts", "number", true⟩,
    ⟨"userAuthRequired", "boolean", true⟩,
    ⟨"dialogTitle", "string", true⟩,
    ⟨"dialogMessage", "string", true⟩,
    ⟨"dialogHint", "string", true⟩ ]

/-- Runtime value of an `AndroidFingerprintAuthOptions` object: the one
required field is a plain `String`, every optional field is an `Option`. -/
structure AuthOptions where
  clientId : String
  username : Option String := none
  password : Option String := none
  token : Option String := none
  disableBackup : Option Bool := none
  locale : Option String := none
  maxAttempts : Option Int := none
  userAuthRequired : Option Bool := none
  dialogTitle : Option String := none
  dialogMessage : Option String := none
  dialogHint : Option String := none
deriving DecidableEq, Repr

/-- Static `ERRORS` constant of the `AndroidFingerprintAuth` class
(source lines 193-212), transcribed entry by entry as an association list
of (key identifier, string value). -/
def ERRORS : List (String × String) :=
  [ ("BAD_PADDING_EXCEPTION", "BAD_PADDING_EXCEPTION"),
    ("CERTIFICATE_EXCEPTION", "CERTIFICATE_EXCEPTION"),
    ("FINGERPRINT_CANCELLED", "FINGERPRINT_CANCELLED"),
    ("FINGERPRINT_DATA_NOT_DELETED", "FINGERPRINT_DATA_NOT_DELETED"),
    ("FINGERPRINT_ERROR", "FINGERPRINT_ERROR"),
    ("FINGERPRINT_NOT_AVAILABLE", "FINGERPRINT_NOT_AVAILABLE"),
    ("FINGERPRINT_PERMISSION_DENIED", "FINGERPRINT_PERMISSION_DENIED"),
    ("FINGERPRINT_PERMISSION_DENIED_SHOW_REQUEST",
      "FINGERPRINT_PERMISSION_DENIED_SHOW_REQUEST"),
    ("ILLEGAL_BLOCK_SIZE_EXCEPTION", "ILLEGAL_BLOCK_SIZE_EXCEPTION"),
    ("INIT_CIPHER_FAILED", "INIT_CIPHER_FAILED"),
    ("INVALID_ALGORITHM_PARAMETER_EXCEPTION",
      "INVALID_ALGORITHM_PARAMETER_EXCEPTION"),
    ("IO_EXCEPTION", "IO_EXCEPTION"),
    ("JSON_EXCEPTION", "JSON_EXCEPTION"),
    ("MINIMUM_SDK", "MINIMUM_SDK"),
    ("MISSING_ACTION_PARAMETERS", "MISSING_ACTION_PARAMETERS"),
    ("MISSING_PARAMETERS", "MISSING_PARAMETERS"),
    ("NO_SUCH_ALGORITHM_EXCEPTION", "NO_SUCH_ALGORITHM_EXCEPTION"),
    ("SECURITY_EXCEPTION", "SECURITY_EXCEPTION") ]

/-- Error-code catalog enumerated in the External Interfaces section of
the spec, in the order listed there.  Written from the spec's words, not
from the source, for comparison with the keys of `ERRORS`. -/
def specErrorCatalog : List String :=
  [ "BAD_PADDING_EXCEPTION",
    "CERTIFICATE_EXCEPTION",
    "FINGERPRINT_CANCELLED",
    "FINGERPRINT_DATA_NOT_DELETED",
    "FINGERPRINT_ERROR",
    "FINGERPRINT_NOT_AVAILABLE",
    "FINGERPRINT_PERMISSION_DENIED",
    "FINGERPRINT_PERMISSION_DENIED_SHOW_REQUEST",
    "ILLEGAL_BLOCK_SIZE_EXCEPTION",
    "INIT_CIPHER_FAILED",
    "INVALID_ALGORITHM_PARAMETER_EXCEPTION",
    "IO_EXCEPTION",
    "JSON_EXCEPTION",
    "MINIMUM_SDK",
    "MISSING_ACTION_PARAMETERS",
    "MISSING_PARAMETERS",
    "NO_SUCH_ALGORITHM_EXCEPTION",
    "SECURITY_EXCEPTION" ]

/-- Declaration of one static method of the `AndroidFingerprintAuth`
class: its name, the number of parameters, the name of the options
interface when the parameter type is a named one, the field table of the
parameter type, and the field table of the record the returned promise
resolves with. -/
structure OperationDecl where
  name : String
  paramCount : Nat
  paramTypeName : Option String
  paramFields : List FieldDecl
  resultFields : List FieldDecl
deriving DecidableEq, Repr

/-- Declaration of `static encrypt(options: AndroidFingerprintAuthOptions)`
(source lines 141-155): one parameter, resolving with
`withFingerprint: boolean`, `withBackup: boolean`, `token: string`. -/
def encryptDecl : OperationDecl :=
  ⟨"encrypt", 1, some "AndroidFingerprintAuthOptions",
    AndroidFingerprintAuthOptionsFields,
    [ ⟨"withFingerprint", "boolean", false⟩,
      ⟨"withBackup", "boolean", false⟩,
      ⟨"token", "string", false⟩ ]⟩

/-- Declaration of `static decrypt(options: AndroidFingerprintAuthOptions)`
(source lines 162-177): one parameter, resolving with
`withFingerprint: boolean`, `withBackup: boolean`, `password: string`. -/
def decryptDecl : OperationDecl :=
  ⟨"decrypt", 1, some "AndroidFingerprintAuthOptions",
    AndroidFingerprintAuthOptionsFields,
    [ ⟨"withFingerprint", "boolean", false⟩,
      ⟨"withBackup", "boolean", false⟩,
      ⟨"password", "string", false⟩ ]⟩

/-- Declaration of `static isAvailable()` (source line 184): no
parameter, resolving with `isAvailable: boolean`. -/
def isAvailableDecl : OperationDecl :=
  ⟨"isAvailable", 0, none, [],
    [ ⟨"isAvailable", "boolean", false⟩ ]⟩

/-- Field table of the inline parameter type
`{clientId: string; username: string; }` of `delete` (source line 191):
both fields lack the optional marker. -/
def deleteOptionsFields : List FieldDecl :=
  [ ⟨"clientId", "string", false⟩,
    ⟨"username", "string", false⟩ ]

/-- Declaration of `static delete(options)` (source line 191): one
parameter of the inline type above, resolving with `deleted: boolean`. -/
def deleteDecl : OperationDecl :=
  ⟨"delete", 1, none, deleteOptionsFields,
    [ ⟨"deleted", "boolean", false⟩ ]⟩

/-- Static methods exposed by the `AndroidFingerprintAuth` class, in
source order; `ERRORS` is the only other static member, and it is data,
not an operation. -/
def operations : List OperationDecl :=
  [encryptDecl, decryptDecl, isAvailableDecl, deleteDecl]

/-- Configuration object passed to the `@Plugin` decorator on the class
(source lines 128-133). -/
structure PluginConfig where
  pluginName : String
  plugin : String
  pluginRef : String
  repo : String
deriving DecidableEq, Repr

/-- Decorator configuration of `AndroidFingerprintAuth`, transcribed from
the source: the bridge-visible entry point is `pluginRef`. -/
def pluginConfig : PluginConfig :=
  { pluginName := "AndroidFingerprintAuth",
    plugin := "cordova-plugin-android-fingerprint-auth",
    pluginRef := "FingerprintAuth",
    repo := "https://github.com/mjwheatley/cordova-plugin-android-fingerprint-auth" }

/-- Invocation of one of the four operations, carrying the caller's
argument where the source method takes one. -/
inductive Op where
  | encrypt (opts : AuthOptions)
  | decrypt (opts : AuthOptions)
  | isAvailable
  | delete (clientId username : String)
deriving DecidableEq, Repr

/-- In-process module state: the one piece of module-level data is the
static `ERRORS` table. -/
structure ModuleState where
  errors : List (String × String)
deriving DecidableEq, Repr

/-- Module state at load: `ERRORS` as initialized at lines 193-212. -/
def initialState : ModuleState := ⟨ERRORS⟩

/-- In-process effect of one operation on module state, transcribed from
the source: each method body is `{ return; }` and assigns nothing, so no
operation writes any module-level data — the `@Cordova` decorator forwards
the call to the native layer outside process memory. -/
def applyOp : Op → ModuleState → ModuleState
  | Op.encrypt _, s => s
  | Op.decrypt _, s => s
  | Op.isAvailable, s => s
  | Op.delete _ _, s => s

/-- Module state after a sequence of operations. -/
def runOps (ops : List Op) (s : ModuleState) : ModuleState :=
  ops.foldl (fun st op => applyOp op st) s

/-- Modelled from the spec: the native bridge behind `encrypt` and
`decrypt` is not in this repository (the source methods are declarations
whose bodies the `@Cordova` decorator replaces with a bridge call).  The
spec describes it as a keyed cipher tied to the `clientId` key-store
alias, encrypting a credential string derived from username+password into
an opaque token that `decrypt` recovers.  The double below realizes that:
a keystore maps each `clientId` alias to a key, the cipher is a keyed
byte-wise transformation, and the credential encoding is a length-prefixed
concatenation of the username and password bytes. -/
def strBytes (s : String) : List Nat := s.data.map Char.toNat

/-- Inverse of `strBytes` on byte lists obtained from strings. -/
def bytesStr (l : List Nat) : String := String.mk (l.map Char.ofNat)

/-- Modelled from the spec: keyed byte-wise cipher of the native layer
(a reversible transformation under the key of the `clientId` alias). -/
def cipherBytes (key : Nat) (l : List Nat) : List Nat :=
  l.map (fun b => b ^^^ key)

/-- Modelled from the spec: credential string derived from username and
password, encoded so the password can be recovered — the username length,
then the username bytes, then the password bytes. -/
def encodeCred (u p : String) : List Nat :=
  u.length :: (strBytes u ++ strBytes p)

/-- Modelled from the spec: recovery of the password bytes from a decoded
credential. -/
def decodePasswordBytes : List Nat → List Nat
  | [] => []
  | n :: rest => rest.drop n

/-- Record the mock double's `encrypt` resolves with, mirroring the
`EncryptResult` schema; the token stands for the base64 string of the
cipher bytes. -/
structure MockEncryptResult where
  withFingerprint : Bool
  withBackup : Bool
  token : List Nat
deriving DecidableEq, Repr

/-- Record the mock double's `decrypt` resolves with, mirroring the
`DecryptResult` schema. -/
structure MockDecryptResult where
  withFingerprint : Bool
  withBackup : Bool
  password : String
deriving DecidableEq, Repr

/-- Modelled from the spec: the native double's `encrypt`.  It requires
username and password (rejecting with `MISSING_PARAMETERS` otherwise),
derives the credential string from them, and encrypts it with the cipher
keyed by the keystore entry of the `clientId` alias.  The success path
models fingerprint authentication succeeding. -/
def mockEncrypt (keystore : String → Nat) (o : AuthOptions) :
    Except String MockEncryptResult :=
  match o.username, o.password with
  | some u, some p =>
      Except.ok ⟨true, false, cipherBytes (keystore o.clientId) (encodeCred u p)⟩
  | _, _ => Except.error "MISSING_PARAMETERS"

/-- Modelled from the spec: the native double's `decrypt`.  It requires
`clientId` and the token previously returned by `encrypt`, decrypts the
token with the cipher keyed by the keystore entry of the `clientId`
alias, and resolves with the recovered plaintext password. -/
def mockDecrypt (keystore : String → Nat) (clientId : String) :
    Option (List Nat) → Except String MockDecryptResult
  | none => Except.error "MISSING_PARAMETERS"
  | some tok =>
      Except.ok ⟨true, false,
        bytesStr (decodePasswordBytes (cipherBytes (keystore clientId) tok))⟩

/-- Decrypting with the key used to encrypt recovers the plaintext bytes. -/
theorem cipherBytes_involutive (key : Nat) (l : List Nat) :
    cipherBytes key (cipherBytes key l) = l := by
  simp only [cipherBytes, List.map_map]
  have h : ((fun b => b ^^^ key) ∘ fun b => b ^^^ key) = (id : Nat → Nat) := by
    funext b
    simp [Function.comp_def, Nat.xor_cancel_right]
  rw [h, List.map_id]

/-- Password recovery inverts the credential encoding. -/
theorem decodePasswordBytes_encodeCred (u p : String) :
    decodePasswordBytes (encodeCred u p) = strBytes p := by
  have hlen : (strBytes u).length = u.length := by
    simp only [strBytes, List.length_map]
    rfl
  simp only [decodePasswordBytes, encodeCred]
  rw [← hlen, List.drop_left]

/-- Converting a character to its code point and back is the identity. -/
theorem char_ofNat_toNat (c : Char) : Char.ofNat c.toNat = c := by
  have hv : c.val.toNat.isValidChar := c.valid
  simp only [Char.ofNat, Char.toNat, hv, dif_pos]
  rfl

/-- Converting a string to bytes and back is the identity. -/
theorem bytesStr_strBytes (s : String) : bytesStr (strBytes s) = s := by
  simp only [bytesStr, strBytes, List.map_map]
  have : (fun c => Char.ofNat (Char.toNat c)) = (id : Char → Char) := by
    funext c
    exact char_ofNat_toNat c
  simp only [Function.comp_def, this, List.map_id]

/-- Running any sequence of operations leaves module state unchanged. -/
theorem runOps_id (ops : List Op) (s : ModuleState) : runOps ops s = s := by
  induction ops generalizing s with
  | nil => rfl
  | cons op rest ih =>
      cases op <;> exact ih s

/-- C1 counterexample: the exported error catalog does not contain
exactly 17 entries — `ERRORS` as transcribed from the source has a
different length. -/
theorem errors_catalog_not_17 : ¬ (ERRORS.length = 17) := by decide

/-- C1 (amended): the exported error catalog (the static `ERRORS`
constant of `AndroidFingerprintAuth`) contains exactly 18 entries. -/
theorem errors_catalog_card_18 : ERRORS.length = 18 := by decide

/-- C2: for every key of the exported `ERRORS` table, the value stored
under that key is a string equal to the key's own identifier name, and
the keys are pairwise distinct, so every association-list lookup returns
the key itself. -/
theorem errors_values_eq_keys :
    ERRORS.all (fun e => e.2 == e.1) = true ∧
      (ERRORS.map Prod.fst).Nodup := by
  constructor
  · decide
  · decide

/-- C3: the error table is a member of the `AndroidFingerprintAuth`
class declarations alongside the four operations, and its key list is
exactly the catalog enumerated in the spec's External Interfaces section,
matched by exact, case-sensitive string identity. -/
theorem errors_keys_match_spec_catalog :
    ERRORS.map Prod.fst = specErrorCatalog := by decide

/-- C4: in the `AndroidFingerprintAuthOptions` field table, `clientId` is
the only field not marked optional, and the ten optional fields are
exactly `username`, `password`, `token`, `disableBackup`, `locale`,
`maxAttempts`, `userAuthRequired`, `dialogTitle`, `dialogMessage`,
`dialogHint`. -/
theorem options_clientId_only_required :
    (AndroidFingerprintAuthOptionsFields.filter
        (fun f => !f.optional)).map FieldDecl.name = ["clientId"] ∧
      (AndroidFingerprintAuthOptionsFields.filter
        (fun f => f.optional)).map FieldDecl.name =
        ["username", "password", "token", "disableBackup", "locale",
         "maxAttempts", "userAuthRequired", "dialogTitle",
         "dialogMessage", "dialogHint"] := by
  constructor
  · decide
  · decide

/-- C5: the `delete` operation's parameter type makes `clientId` and
`username` required strings (both fields present, typed `string`, and not
optional), and its result carries a single boolean deletion flag. -/
theorem delete_requires_clientId_username :
    deleteDecl.paramFields =
        [⟨"clientId", "string", false⟩, ⟨"username", "string", false⟩] ∧
      deleteDecl.resultFields.length = 1 ∧
      deleteDecl.resultFields.all (fun f => f.tsType == "boolean") = true := by
  refine ⟨?_, ?_, ?_⟩
  · decide
  · decide
  · decide

/-- C6: the class exposes exactly the four operations `encrypt`,
`decrypt`, `isAvailable`, `delete`, each taking at most a single options
object, and the bridge-visible entry point identifier of the `@Plugin`
configuration is `FingerprintAuth`. -/
theorem four_operations_and_bridge_name :
    operations.map OperationDecl.name =
        ["encrypt", "decrypt", "isAvailable", "delete"] ∧
      operations.all (fun op => op.paramCount ≤ 1) = true ∧
      pluginConfig.pluginRef = "FingerprintAuth" := by
  refine ⟨?_, ?_, ?_⟩
  · decide
  · decide
  · decide

/-- C7: for every keystore, clientId, username and password, the
spec-modelled native double's `encrypt` succeeds and returns a token
such that `decrypt` with the same `clientId` and that token succeeds and
recovers a password equal to the original input password. -/
theorem encrypt_decrypt_roundtrip (keystore : String → Nat)
    (cid u p : String) :
    ∃ tok,
      mockEncrypt keystore
          { clientId := cid, username := some u, password := some p } =
        Except.ok ⟨true, false, tok⟩ ∧
      mockDecrypt keystore cid (some tok) = Except.ok ⟨true, false, p⟩ := by
  refine ⟨cipherBytes (keystore cid) (encodeCred u p), rfl, ?_⟩
  simp only [mockDecrypt, cipherBytes_involutive,
    decodePasswordBytes_encodeCred, bytesStr_strBytes]

/-- C8: the error table is defined once at module load and never
mutated: after any sequence of the four operations, the module state's
error table equals `ERRORS` as initialized. -/
theorem errors_immutable_under_ops (ops : List Op) :
    (runOps ops initialState).errors = ERRORS := by
  rw [runOps_id]
  rfl

/-- C9: the options type accepted by `decrypt` is
`AndroidFingerprintAuthOptions`, and in its field table neither
`username` nor `token` is required: both carry the optional marker. -/
theorem decrypt_options_username_token_optional :
    decryptDecl.paramTypeName = some "AndroidFingerprintAuthOptions" ∧
      decryptDecl.paramFields.all
        (fun f => f.name == "username" → f.optional) = true ∧
      decryptDecl.paramFields.all
        (fun f => f.name == "token" → f.optional) = true ∧
      (decryptDecl.paramFields.map FieldDecl.name).contains "username" = true ∧
      (decryptDecl.paramFields.map FieldDecl.name).contains "token" = true := by
  refine ⟨?_, ?_, ?_, ?_, ?_⟩
  · decide
  · decide
  · decide
  · decide
  · decide

/-- C10: the concrete result field names at the public interface are
`withFingerprint`, `withBackup`, `token` for `encrypt`;
`withFingerprint`, `withBackup`, `password` for `decrypt`;
`isAvailable` for `isAvailable`; and `deleted` for `delete` — and none of
the spec's abstract names (`wasFingerprintUsed`, `encodedToken`,
`decryptedPassword`, `wasDeleted`) occurs among them. -/
theorem result_field_names_concrete :
    encryptDecl.resultFields.map FieldDecl.name =
        ["withFingerprint", "withBackup", "token"] ∧
      decryptDecl.resultFields.map FieldDecl.name =
        ["withFingerprint", "withBackup", "password"] ∧
      isAvailableDecl.resultFields.map FieldDecl.name = ["isAvailable"] ∧
      deleteDecl.resultFields.map FieldDecl.name = ["deleted"] ∧
      operations.all (fun op => op.resultFields.all (fun f =>
        f.name != "wasFingerprintUsed" && f.name != "encodedToken" &&
        f.name != "decryptedPassword" && f.name != "wasDeleted")) = true := by
  refine ⟨?_, ?_, ?_, ?_, ?_⟩
  · decide
  · decide
  · decide
  · decide
  · decide

end AndroidFingerprintAuthSpec
